import Mathlib

/-!
# bine `tor` package: `EnableNetwork`, `Dialer` and `dialWithCtx`

A shallow embedding of `src/tor/tor.go` and `src/tor/dialer.go`.

* Go `error` values are `Option Error`: `none` is the nil error.
* The controller connection (`control.Conn`) is a collaborator whose code is
  not part of the two source files; it is a record of state-passing
  operations over an arbitrary state `σ`. The library constructor
  `proxy.SOCKS5` is a state-passing operation on the same state, so that a
  call of a collaborator, and the arguments of the call, show in the state
  the collaborator leaves.
* Every request a function sends to a collaborator is appended to a call
  log, so that frame properties ("no SetConf request", "no event wait") are
  statements about the log.
* `dialWithCtx` starts a goroutine and races it against the context in a
  `select`; it is embedded as a transition function on the joint state of
  the context, the goroutine and the calling function.
-/

/-- Go error values; the nil error is `none : Option Error`. The payload is the message. -/
abbrev Error := String

namespace control

/-- The two fields of `control.KeyVal` the source reads (`Key`, `Val`). -/
structure KeyVal where
  Key : String
  Val : String
deriving DecidableEq, Repr

/-- Event codes (`control.EventCode` is a string type). -/
abbrev EventCode := String

/-- Modelled from the spec: the constant `control.EventCodeStatusClient`, the
status-changed notification category the wait subscribes to. -/
def EventCodeStatusClient : EventCode := "STATUS_CLIENT"

/-- Modelled from the spec: the helper `control.KeyVals`, which turns a flat
list `key, value, key, value, ...` into the key/value entries of a
configuration-set request. -/
def KeyVals : List String → List KeyVal
  | k :: v :: rest => ⟨k, v⟩ :: KeyVals rest
  | _ => []

/-- The fields of `control.StatusEvent` read by the predicate in
`EnableNetwork`. `Arguments` is a Go `map[string]string`, kept as an
association list. -/
structure StatusEvent where
  Severity : String
  Action : String
  Arguments : List (String × String)
deriving DecidableEq, Repr

/-- Indexing a Go `map[string]string`: a missing key gives the empty string. -/
def mapIndex (m : List (String × String)) (k : String) : String :=
  (m.lookup k).getD ""

/-- Values of the interface `control.Event`: either the dynamic type is
`*control.StatusEvent` (the pointer may be nil) or it is another event type. -/
inductive Event where
  | status (p : Option StatusEvent)
  | other (code : EventCode)
deriving DecidableEq, Repr

end control

namespace context

/-- A `context.Context` as far as the source observes it: the value of
`ctx.Err()`. It is `none` while the context is live; once the context is
cancelled `ctx.Done()` is closed and `ctx.Err()` is the non-nil reason. -/
structure Context where
  Err : Option Error
deriving DecidableEq, Repr

/-- The context of `context.Background()`: never cancelled. -/
def Background : Context := ⟨none⟩

end context

namespace tor

open control context

/-- The methods of `*control.Conn` called by the source, as state-passing
operations on the controller state `σ`. Each returns the Go result tuple. -/
structure Conn (σ : Type) where
  GetConf : List String → σ → (List KeyVal × Option Error) × σ
  SetConf : List KeyVal → σ → Option Error × σ
  GetInfo : List String → σ → (List KeyVal × Option Error) × σ
  EventWait : Context → List EventCode → (Event → Bool × Option Error) → σ →
    (Option Event × Option Error) × σ

/-- One request sent to a collaborator. -/
inductive Call where
  | getConf (keys : List String)
  | setConf (entries : List KeyVal)
  | eventWait (codes : List EventCode)
  | getInfo (keys : List String)
  | socks5 (network address : String)
deriving DecidableEq, Repr

/-- The predicate `EnableNetwork` hands to `EventWait` (tor.go lines 146-155). -/
def bootstrapPredicate (evt : Event) : Bool × Option Error :=
  match evt with
  | .status (some status) =>
    if status.Action = "BOOTSTRAP" then
      if status.Severity = "NOTICE" ∧ mapIndex status.Arguments "PROGRESS" = "100" then
        (true, none)
      else if status.Severity = "ERR" then
        (false, some ("Failing bootstrapping, Tor warning: " ++ mapIndex status.Arguments "WARNING"))
      else (false, none)
    else (false, none)
  | _ => (false, none)

/-- The guard `if ctx == nil { ctx = context.Background() }` that opens
`EnableNetwork` and `Dialer`. -/
def ctxOrBackground (ctx : Option Context) : Context :=
  match ctx with
  | none => Background
  | some c => c

/-- What a run of `EnableNetwork` leaves behind: the returned error, the
controller state and the requests issued, in order. -/
structure EnableResult (σ : Type) where
  err : Option Error
  state : σ
  calls : List Call

/-- `Tor.EnableNetwork` (tor.go lines 126-157). A nil `ctx` is `none`. -/
def EnableNetwork {σ : Type} (t : Conn σ) (ctx : Option Context) (wait : Bool) (s : σ) :
    EnableResult σ :=
  let ctx := ctxOrBackground ctx
  -- Only enable if DisableNetwork is 1
  match t.GetConf ["DisableNetwork"] s with
  | ((_, some err), s1) => ⟨some err, s1, [.getConf ["DisableNetwork"]]⟩
  | ((vals, none), s1) =>
    match vals with
    | [] => ⟨none, s1, [.getConf ["DisableNetwork"]]⟩
    | v :: _ =>
      if v.Key ≠ "DisableNetwork" ∨ v.Val ≠ "1" then
        ⟨none, s1, [.getConf ["DisableNetwork"]]⟩
      else
        -- Enable the network
        match t.SetConf (KeyVals ["DisableNetwork", "0"]) s1 with
        | (some _, s2) =>
          ⟨none, s2, [.getConf ["DisableNetwork"], .setConf (KeyVals ["DisableNetwork", "0"])]⟩
        | (none, s2) =>
          -- If not waiting, leave
          if !wait then
            ⟨none, s2, [.getConf ["DisableNetwork"], .setConf (KeyVals ["DisableNetwork", "0"])]⟩
          else
            -- Wait for progress to hit 100
            match t.EventWait ctx [EventCodeStatusClient] bootstrapPredicate s2 with
            | ((_, err), s3) =>
              ⟨err, s3, [.getConf ["DisableNetwork"], .setConf (KeyVals ["DisableNetwork", "0"]),
                .eventWait [EventCodeStatusClient]]⟩

/-- Go `strings.HasPrefix`. The marker tested by the source is ASCII, so the
test on bytes and the test on characters agree. -/
def HasPrefix (s pre : String) : Bool :=
  pre.data.isPrefixOf s.data

/-- The Go slice expression `s[n:]`, used by the source only after
`HasPrefix s "unix:"` with `n = 5`, where byte and character offsets agree. -/
def sliceFrom (s : String) (n : Nat) : String :=
  ⟨s.data.drop n⟩

/-- `DialConf` (dialer.go lines 13-37). `ProxyAuth` and `Forward` are values
the source only forwards; `none` is the nil pointer / nil interface. -/
structure DialConf (α φ : Type) where
  ProxyAddress : String := ""
  ProxyNetwork : String := ""
  ProxyAuth : Option α := none
  SkipEnableNetwork : Bool := false
  Forward : Option φ := none

/-- The guard `if conf == nil { conf = &DialConf{} }` of `Dialer`
(dialer.go lines 45-47): the default has every field at its zero value. -/
def confOrDefault {α φ : Type} (conf : Option (DialConf α φ)) : DialConf α φ :=
  match conf with
  | none => {}
  | some c => c

/-- The type `dialerCtxWrapper` (dialer.go lines 84-86). -/
structure dialerCtxWrapper (δ : Type) where
  dialer : δ
deriving DecidableEq, Repr

/-- What a run of `Dialer` leaves behind: the two returned values, the
controller state and the requests issued, in order. -/
structure DialerResult (σ δ : Type) where
  dialer : Option (dialerCtxWrapper δ)
  err : Option Error
  state : σ
  calls : List Call

/-- The guarded call `if !conf.SkipEnableNetwork { t.EnableNetwork(ctx, true) }`
of `Dialer` (dialer.go lines 49-53); when the step is skipped nothing is sent
and there is no error. -/
def enableStep {σ : Type} (t : Conn σ) (ctx : Context) (skip : Bool) (s : σ) : EnableResult σ :=
  if !skip then EnableNetwork t (some ctx) true s else ⟨none, s, []⟩

/-- `Tor.Dialer` (dialer.go lines 41-82). `SOCKS5` stands for the library
constructor `proxy.SOCKS5`; like the controller methods it is a collaborator
acting on the state `σ`, so that a call of it leaves a trace in the final
state. A nil `ctx` or `conf` is `none`. -/
def Dialer {σ α φ δ : Type} (t : Conn σ)
    (SOCKS5 : String → String → Option α → Option φ → σ → (δ × Option Error) × σ)
    (ctx : Option Context) (conf : Option (DialConf α φ)) (s : σ) : DialerResult σ δ :=
  let ctx := ctxOrBackground ctx
  let conf := confOrDefault conf
  -- Enable the network if requested
  let en : EnableResult σ := enableStep t ctx conf.SkipEnableNetwork s
  match en.err with
  | some err => ⟨none, some err, en.state, en.calls⟩
  | none =>
    -- the call of proxy.SOCKS5 and what follows it (lines 76-81)
    let construct (proxyNetwork proxyAddress : String) (s1 : σ) (calls : List Call) :
        DialerResult σ δ :=
      match SOCKS5 proxyNetwork proxyAddress conf.ProxyAuth conf.Forward s1 with
      | ((_, some err), s2) =>
        ⟨none, some err, s2, calls ++ [.socks5 proxyNetwork proxyAddress]⟩
      | ((dialer, none), s2) =>
        ⟨some ⟨dialer⟩, none, s2, calls ++ [.socks5 proxyNetwork proxyAddress]⟩
    -- Lookup proxy address as needed
    let proxyNetwork := conf.ProxyNetwork
    let proxyAddress := conf.ProxyAddress
    if proxyAddress = "" then
      match t.GetInfo ["net/listeners/socks"] en.state with
      | ((_, some err), s1) => ⟨none, some err, s1, en.calls ++ [.getInfo ["net/listeners/socks"]]⟩
      | ((info, none), s1) =>
        match info with
        | [kv] =>
          if kv.Key ≠ "net/listeners/socks" then
            ⟨none, some "Unable to get socks proxy address", s1,
              en.calls ++ [.getInfo ["net/listeners/socks"]]⟩
          else
            let proxyAddress := kv.Val
            if HasPrefix proxyAddress "unix:" then
              construct "unix" (sliceFrom proxyAddress 5) s1
                (en.calls ++ [.getInfo ["net/listeners/socks"]])
            else
              construct "tcp" proxyAddress s1 (en.calls ++ [.getInfo ["net/listeners/socks"]])
        | _ =>
          ⟨none, some "Unable to get socks proxy address", s1,
            en.calls ++ [.getInfo ["net/listeners/socks"]]⟩
    else if proxyNetwork = "" then
      construct "tcp" proxyAddress en.state en.calls
    else
      construct proxyNetwork proxyAddress en.state en.calls

/-- Where the goroutine started at dialer.go line 102 stands. -/
inductive Goroutine (C : Type) where
  /-- inside the call `f(network, address)` (line 103) -/
  | running
  /-- `f` returned a non-nil error; blocked at `chErr <- err` (line 105) -/
  | sendErr (err : Error)
  /-- `f` returned a nil error; blocked at `chConn <- conn` (line 108) -/
  | sendConn (conn : C)
  /-- its send was received and the goroutine returned -/
  | finished
deriving DecidableEq, Repr

/-- Where the function returned by `dialWithCtx` stands. -/
inductive Caller (C : Type) where
  /-- at the `select` (line 111) -/
  | selecting
  /-- returned `(conn, err)` -/
  | returned (conn : C) (err : Option Error)
deriving DecidableEq, Repr

/-- The joint state of one invocation of the function returned by
`dialWithCtx`: the context, the goroutine and the caller. -/
structure DialState (C : Type) where
  ctx : Context
  gor : Goroutine C
  caller : Caller C
deriving DecidableEq, Repr

/-- The events of one invocation. -/
inductive Move where
  /-- the blocking call `f(network, address)` returns in the goroutine -/
  | fReturns
  /-- the owner of the context cancels it (or its deadline passes) -/
  | cancel (reason : Error)
  /-- the `select` takes `case <-ctx.Done()` -/
  | recvDone
  /-- the `select` takes `case err := <-chErr` -/
  | recvErr
  /-- the `select` takes `case conn := <-chConn` -/
  | recvConn
deriving DecidableEq, Repr

/-- The state right after the `go` statement: the goroutine has been started
and the caller is at its `select`. The context may already be cancelled. -/
def dialInit {C : Type} (ctx : Context) : DialState C :=
  ⟨ctx, .running, .selecting⟩

/-- `dialWithCtx` (dialer.go lines 95-120) as a transition function: the
state after a move, or `none` when the move cannot happen in that state.
`chConn` and `chErr` are unbuffered (`make(chan Conn)`, `make(chan error)`),
so a send happens only together with the matching receive of the `select`;
the zero value of `Conn` (the named result `zeroConn`) is `default`. A call of
`f` that never returns is a run without the move `fReturns`. -/
def dialWithCtx {C : Type} [Inhabited C] (f : String → String → C × Option Error)
    (network address : String) (m : Move) (st : DialState C) : Option (DialState C) :=
  match m with
  | .fReturns =>
    match st.gor with
    | .running =>
      match f network address with
      | (_, some err) => some { st with gor := .sendErr err }
      | (conn, none) => some { st with gor := .sendConn conn }
    | _ => none
  | .cancel reason =>
    match st.ctx.Err with
    | none => some { st with ctx := ⟨some reason⟩ }
    | some _ => none
  | .recvDone =>
    match st.caller, st.ctx.Err with
    | .selecting, some reason => some { st with caller := .returned default (some reason) }
    | _, _ => none
  | .recvErr =>
    match st.caller, st.gor with
    | .selecting, .sendErr err =>
      some { st with caller := .returned default (some err), gor := .finished }
    | _, _ => none
  | .recvConn =>
    match st.caller, st.gor with
    | .selecting, .sendConn conn =>
      some { st with caller := .returned conn none, gor := .finished }
    | _, _ => none

/-- A run: the moves of a schedule applied one after the other. -/
def dialRun {C : Type} [Inhabited C] (f : String → String → C × Option Error)
    (network address : String) : List Move → DialState C → Option (DialState C)
  | [], st => some st
  | m :: ms, st =>
    match dialWithCtx f network address m st with
    | some st1 => dialRun f network address ms st1
    | none => none

/-- The invariant of the runs of `dialWithCtx`: what the goroutine is about to
send is what `f` returned; a caller that returned without receiving from the
goroutine returned the zero value and the non-nil `ctx.Err()`; a caller that
received from the goroutine returned what was sent. -/
def DialInv {C : Type} [Inhabited C] (f : String → String → C × Option Error)
    (network address : String) (st : DialState C) : Prop :=
  match st.gor, st.caller with
  | .running, .selecting => True
  | .running, .returned conn err => conn = default ∧ err = st.ctx.Err ∧ err ≠ none
  | .sendErr e, .selecting => (f network address).2 = some e
  | .sendErr e, .returned conn err =>
    (f network address).2 = some e ∧ conn = default ∧ err = st.ctx.Err ∧ err ≠ none
  | .sendConn c, .selecting => f network address = (c, none)
  | .sendConn c, .returned conn err =>
    f network address = (c, none) ∧ conn = default ∧ err = st.ctx.Err ∧ err ≠ none
  | .finished, .selecting => False
  | .finished, .returned conn err =>
    err = (f network address).2 ∧
    conn = if (f network address).2 = none then (f network address).1 else default

/-! ### Collaborator doubles used to evaluate the code on concrete inputs -/

/-- A controller double whose state counts the requests it received.
`GetConf` reports `conf`, `SetConf` answers `setErr`, `GetInfo` reports
`info`, and `EventWait` applies the predicate to the single event `evt`. -/
def double (conf info : List KeyVal) (setErr : Option Error) (evt : Event) : Conn Nat where
  GetConf := fun _ n => ((conf, none), n + 1)
  SetConf := fun _ n => (setErr, n + 1)
  GetInfo := fun _ n => ((info, none), n + 1)
  EventWait := fun _ _ p n => ((some evt, (p evt).2), n + 1)

/-- The bootstrap-complete status event. -/
def bootstrapDone : Event :=
  .status (some ⟨"NOTICE", "BOOTSTRAP", [("PROGRESS", "100")]⟩)

/-- A bootstrap status event of severity "ERR". -/
def bootstrapFailed : Event :=
  .status (some ⟨"ERR", "BOOTSTRAP", [("WARNING", "no route")]⟩)

/-- A controller double whose state is the list of the requests it received,
each recorded by the method that received it, with the arguments it received. -/
def recorder (conf info : List KeyVal) (setErr : Option Error) (evt : Event) :
    Conn (List Call) where
  GetConf := fun keys log => ((conf, none), log ++ [.getConf keys])
  SetConf := fun entries log => (setErr, log ++ [.setConf entries])
  GetInfo := fun keys log => ((info, none), log ++ [.getInfo keys])
  EventWait := fun _ codes p log => ((some evt, (p evt).2), log ++ [.eventWait codes])

/-- A SOCKS5 constructor double on the same record: it records the endpoint it
received, and the dialer it builds is that endpoint. -/
def socksRecorder (network address : String) (_ : Option Unit) (_ : Option Unit)
    (log : List Call) : ((String × String) × Option Error) × List Call :=
  (((network, address), none), log ++ [.socks5 network address])

/-- A blocking dial that fails and still returns a non-zero connection value. -/
def dialBoth (_ _ : String) : Nat × Option Error := (7, some "connection refused")

/-- A blocking dial that succeeds with connection 7. -/
def dialOk (_ _ : String) : Nat × Option Error := (7, none)

/-! ## Auxiliary facts -/

/-- The requests of `EnableNetwork` are the query, then possibly the `SetConf`
request, then possibly the event wait. -/
theorem EnableNetwork_calls_cases {σ : Type} (t : Conn σ) (ctx : Option Context) (wait : Bool)
    (s : σ) :
    (EnableNetwork t ctx wait s).calls = [.getConf ["DisableNetwork"]] ∨
    (EnableNetwork t ctx wait s).calls
      = [.getConf ["DisableNetwork"], .setConf [⟨"DisableNetwork", "0"⟩]] ∨
    (EnableNetwork t ctx wait s).calls
      = [.getConf ["DisableNetwork"], .setConf [⟨"DisableNetwork", "0"⟩],
          .eventWait [EventCodeStatusClient]] := by
  simp only [EnableNetwork]
  split
  · simp
  · split
    · simp
    · split
      · simp
      · split
        · simp [KeyVals]
        · split
          · simp [KeyVals]
          · simp [KeyVals]

/-- The enable step of `Dialer` sends neither a `GetInfo` request nor a call of
the SOCKS5 constructor. -/
theorem enableStep_calls_cases {σ : Type} (t : Conn σ) (ctx : Context) (skip : Bool) (s : σ) :
    ∀ c ∈ (enableStep t ctx skip s).calls,
      (∀ n a, c ≠ Call.socks5 n a) ∧ (∀ k, c ≠ Call.getInfo k) := by
  intro c hc
  unfold enableStep at hc
  split_ifs at hc
  · rcases EnableNetwork_calls_cases t (some ctx) true s with h | h | h <;>
      (rw [h] at hc; simp at hc; rcases hc with rfl | rfl | rfl <;> simp)
  · simp at hc

/-- `HasPrefix v p` holds exactly when `v` is `p` followed by some rest. -/
theorem HasPrefix_iff (v p : String) : HasPrefix v p = true ↔ ∃ rest, v = p ++ rest := by
  unfold HasPrefix
  rw [List.isPrefixOf_iff_prefix]
  constructor
  · rintro ⟨r, hr⟩
    exact ⟨⟨r⟩, by apply String.ext; simp [hr]⟩
  · rintro ⟨r, rfl⟩
    exact ⟨r.data, by simp⟩

/-- Slicing off the length of a prefix leaves the rest. -/
theorem sliceFrom_append (p rest : String) : sliceFrom (p ++ rest) p.length = rest := by
  unfold sliceFrom
  apply String.ext
  show List.drop p.data.length (p ++ rest).data = rest.data
  rw [String.data_append, List.drop_left]

/-- With no configured address, a successful enable step and a lookup that
yields a single entry with the key `net/listeners/socks`, `Dialer` sends the
lookup, applies the SOCKS5 constructor in the state the lookup left, on the
endpoint read off the value, and returns what the constructor yields. -/
theorem Dialer_lookup_result {σ α φ δ : Type} (t : Conn σ)
    (SOCKS5 : String → String → Option α → Option φ → σ → (δ × Option Error) × σ)
    (ctx : Option Context) (conf : Option (DialConf α φ)) (s s1 : σ) (kv : KeyVal)
    (haddr : (confOrDefault conf).ProxyAddress = "")
    (hen : (enableStep t (ctxOrBackground ctx) (confOrDefault conf).SkipEnableNetwork s).err = none)
    (hinfo : t.GetInfo ["net/listeners/socks"]
        (enableStep t (ctxOrBackground ctx) (confOrDefault conf).SkipEnableNetwork s).state
      = (([kv], none), s1))
    (hk : kv.Key = "net/listeners/socks") (network address : String)
    (hnet : network = if HasPrefix kv.Val "unix:" then "unix" else "tcp")
    (haddress : address = if HasPrefix kv.Val "unix:" then sliceFrom kv.Val 5 else kv.Val) :
    (Dialer t SOCKS5 ctx conf s).err =
      (SOCKS5 network address (confOrDefault conf).ProxyAuth (confOrDefault conf).Forward s1).1.2 ∧
    (Dialer t SOCKS5 ctx conf s).dialer =
      (if (SOCKS5 network address (confOrDefault conf).ProxyAuth
            (confOrDefault conf).Forward s1).1.2.isSome then none
       else some ⟨(SOCKS5 network address (confOrDefault conf).ProxyAuth
            (confOrDefault conf).Forward s1).1.1⟩) ∧
    (Dialer t SOCKS5 ctx conf s).state =
      (SOCKS5 network address (confOrDefault conf).ProxyAuth (confOrDefault conf).Forward s1).2 ∧
    (Dialer t SOCKS5 ctx conf s).calls =
      (enableStep t (ctxOrBackground ctx) (confOrDefault conf).SkipEnableNetwork s).calls ++
        [.getInfo ["net/listeners/socks"], .socks5 network address] := by
  subst hnet haddress
  simp only [Dialer, hen, haddr, hinfo, if_true]
  simp only [hk, ne_eq, not_true_eq_false, if_false]
  by_cases hp : HasPrefix kv.Val "unix:" = true
  · simp only [if_pos hp]
    rcases SOCKS5 "unix" (sliceFrom kv.Val 5) (confOrDefault conf).ProxyAuth
      (confOrDefault conf).Forward s1 with ⟨⟨d, _ | e⟩, s2⟩ <;> simp
  · simp only [if_neg hp]
    rcases SOCKS5 "tcp" kv.Val (confOrDefault conf).ProxyAuth
      (confOrDefault conf).Forward s1 with ⟨⟨d, _ | e⟩, s2⟩ <;> simp

/-- With a configured address and a successful enable step, `Dialer` applies
the SOCKS5 constructor in the state the enable step left, on that address and
on the configured network or "tcp", and returns what the constructor yields. -/
theorem Dialer_explicit_result {σ α φ δ : Type} (t : Conn σ)
    (SOCKS5 : String → String → Option α → Option φ → σ → (δ × Option Error) × σ)
    (ctx : Option Context) (conf : Option (DialConf α φ)) (s : σ)
    (haddr : (confOrDefault conf).ProxyAddress ≠ "")
    (hen : (enableStep t (ctxOrBackground ctx) (confOrDefault conf).SkipEnableNetwork s).err = none)
    (network : String)
    (hnet : network = if (confOrDefault conf).ProxyNetwork = "" then "tcp"
      else (confOrDefault conf).ProxyNetwork) :
    (Dialer t SOCKS5 ctx conf s).err =
      (SOCKS5 network (confOrDefault conf).ProxyAddress (confOrDefault conf).ProxyAuth
        (confOrDefault conf).Forward
        (enableStep t (ctxOrBackground ctx) (confOrDefault conf).SkipEnableNetwork s).state).1.2 ∧
    (Dialer t SOCKS5 ctx conf s).dialer =
      (if (SOCKS5 network (confOrDefault conf).ProxyAddress (confOrDefault conf).ProxyAuth
            (confOrDefault conf).Forward
            (enableStep t (ctxOrBackground ctx)
              (confOrDefault conf).SkipEnableNetwork s).state).1.2.isSome then none
       else some ⟨(SOCKS5 network (confOrDefault conf).ProxyAddress (confOrDefault conf).ProxyAuth
            (confOrDefault conf).Forward
            (enableStep t (ctxOrBackground ctx)
              (confOrDefault conf).SkipEnableNetwork s).state).1.1⟩) ∧
    (Dialer t SOCKS5 ctx conf s).state =
      (SOCKS5 network (confOrDefault conf).ProxyAddress (confOrDefault conf).ProxyAuth
        (confOrDefault conf).Forward
        (enableStep t (ctxOrBackground ctx) (confOrDefault conf).SkipEnableNetwork s).state).2 ∧
    (Dialer t SOCKS5 ctx conf s).calls =
      (enableStep t (ctxOrBackground ctx) (confOrDefault conf).SkipEnableNetwork s).calls ++
        [.socks5 network (confOrDefault conf).ProxyAddress] := by
  subst hnet
  simp only [Dialer, hen, haddr, if_false]
  by_cases hp : (confOrDefault conf).ProxyNetwork = ""
  · simp only [if_pos hp]
    rcases SOCKS5 "tcp" (confOrDefault conf).ProxyAddress (confOrDefault conf).ProxyAuth
      (confOrDefault conf).Forward
      (enableStep t (ctxOrBackground ctx) (confOrDefault conf).SkipEnableNetwork s).state
      with ⟨⟨d, _ | e⟩, s2⟩ <;> simp
  · simp only [if_neg hp]
    rcases SOCKS5 (confOrDefault conf).ProxyNetwork (confOrDefault conf).ProxyAddress
      (confOrDefault conf).ProxyAuth (confOrDefault conf).Forward
      (enableStep t (ctxOrBackground ctx) (confOrDefault conf).SkipEnableNetwork s).state
      with ⟨⟨d, _ | e⟩, s2⟩ <;> simp

/-- Every move of `dialWithCtx` preserves the invariant. -/
theorem DialInv_step {C : Type} [Inhabited C] (f : String → String → C × Option Error)
    (network address : String) (m : Move) (st st1 : DialState C)
    (hinv : DialInv f network address st)
    (hstep : dialWithCtx f network address m st = some st1) :
    DialInv f network address st1 := by
  obtain ⟨⟨cerr⟩, gor, caller⟩ := st
  cases hf : f network address with
  | mk fc fe =>
  cases m <;> cases gor <;> cases caller <;> cases cerr <;> cases fe <;>
    simp [dialWithCtx, DialInv, hf] at hinv hstep ⊢ <;>
    (try subst hstep) <;> simp_all [DialInv]

/-- Every run of `dialWithCtx` preserves the invariant. -/
theorem DialInv_run {C : Type} [Inhabited C] (f : String → String → C × Option Error)
    (network address : String) (ms : List Move) :
    ∀ (st st1 : DialState C), DialInv f network address st →
      dialRun f network address ms st = some st1 → DialInv f network address st1 := by
  induction ms with
  | nil =>
    intro st st1 hinv hrun
    simp only [dialRun, Option.some.injEq] at hrun
    exact hrun ▸ hinv
  | cons m ms ih =>
    intro st st1 hinv hrun
    simp only [dialRun] at hrun
    cases hstep : dialWithCtx f network address m st with
    | none => simp [hstep] at hrun
    | some st2 =>
      simp only [hstep] at hrun
      exact ih st2 st1 (DialInv_step f network address m st st2 hinv hstep) hrun

/-- The invariant holds right after the `go` statement. -/
theorem DialInv_init {C : Type} [Inhabited C] (f : String → String → C × Option Error)
    (network address : String) (ctx : Context) :
    DialInv f network address (dialInit ctx : DialState C) := by
  simp [DialInv, dialInit]

/-- Once the caller has returned, no move changes what it returned, a
cancelled context stays cancelled with the same reason, and a goroutine whose
send was not received never finishes. -/
theorem dialRun_after_return {C : Type} [Inhabited C] (f : String → String → C × Option Error)
    (network address : String) (ms : List Move) :
    ∀ (st st1 : DialState C) (conn : C) (err : Option Error),
      st.caller = .returned conn err → dialRun f network address ms st = some st1 →
      st1.caller = .returned conn err ∧ (st.gor ≠ .finished → st1.gor ≠ .finished) ∧
      (∀ r, st.ctx.Err = some r → st1.ctx.Err = some r) := by
  induction ms with
  | nil =>
    intro st st1 conn err hret hrun
    simp only [dialRun, Option.some.injEq] at hrun
    subst hrun
    exact ⟨hret, id, fun _ h => h⟩
  | cons m ms ih =>
    intro st st1 conn err hret hrun
    simp only [dialRun] at hrun
    cases hstep : dialWithCtx f network address m st with
    | none => simp [hstep] at hrun
    | some st2 =>
      simp only [hstep] at hrun
      have h2 : st2.caller = .returned conn err ∧ (st.gor ≠ .finished → st2.gor ≠ .finished) ∧
          (∀ r, st.ctx.Err = some r → st2.ctx.Err = some r) := by
        obtain ⟨⟨cerr⟩, gor, caller⟩ := st
        simp only at hret
        subst hret
        cases hf : f network address with
        | mk fc fe =>
        cases m <;> cases gor <;> cases cerr <;> cases fe <;>
          simp [dialWithCtx, hf] at hstep ⊢ <;> subst hstep <;> simp
      obtain ⟨h3, h4, h5⟩ := ih st2 st1 conn err h2.1 hrun
      exact ⟨h3, fun h => h4 (h2.2.1 h), fun r h => h5 r (h2.2.2 r h)⟩

/-! ## `EnableNetwork` -/

/-- C1: with `DisableNetwork` reported as "1" and the request
`SetConf(DisableNetwork=0)` failing with "broken pipe", `EnableNetwork` sends
exactly the two requests `GetConf` and `SetConf`, attempts no event wait, and
returns the nil error for both values of `wait`: the failure is not reported. -/
theorem EnableNetwork_setConf_failure_returns_nil :
    (EnableNetwork (double [⟨"DisableNetwork", "1"⟩] [] (some "broken pipe") bootstrapDone)
        none true 0).err = none ∧
    (EnableNetwork (double [⟨"DisableNetwork", "1"⟩] [] (some "broken pipe") bootstrapDone)
        none false 0).err = none ∧
    (EnableNetwork (double [⟨"DisableNetwork", "1"⟩] [] (some "broken pipe") bootstrapDone)
        none true 0).calls
      = [.getConf ["DisableNetwork"], .setConf [⟨"DisableNetwork", "0"⟩]] ∧
    (EnableNetwork (double [⟨"DisableNetwork", "1"⟩] [] (some "broken pipe") bootstrapDone)
        none false 0).calls
      = [.getConf ["DisableNetwork"], .setConf [⟨"DisableNetwork", "0"⟩]] := by
  refine ⟨?_, ?_, ?_, ?_⟩ <;> decide

/-- C4: the predicate `EnableNetwork` hands to `EventWait` (a waiting double
that applies its predicate to the event `evt` makes `EnableNetwork` return the
predicate's error) gives exactly one of three answers. It answers
`(true, nil)` exactly on a status event with action "BOOTSTRAP", severity
"NOTICE" and `Arguments["PROGRESS"]` equal to "100"; it answers `false` with an
error exactly on a status event with action "BOOTSTRAP" and severity "ERR", and
the error text then ends with `Arguments["WARNING"]`; it answers `(false, nil)`
on every other event, among them events of another type, a nil status pointer,
and a "NOTICE" bootstrap event whose "PROGRESS" is missing or "50". -/
theorem bootstrapPredicate_classifies (evt : Event) :
    ((EnableNetwork (double [⟨"DisableNetwork", "1"⟩] [] none evt) none true 0).err
      = (bootstrapPredicate evt).2) ∧
    (bootstrapPredicate evt = (true, none) ↔
      ∃ st, evt = .status (some st) ∧ st.Action = "BOOTSTRAP" ∧ st.Severity = "NOTICE" ∧
        mapIndex st.Arguments "PROGRESS" = "100") ∧
    ((∃ e, bootstrapPredicate evt = (false, some e)) ↔
      ∃ st, evt = .status (some st) ∧ st.Action = "BOOTSTRAP" ∧ st.Severity = "ERR") ∧
    (∀ st, evt = .status (some st) ∧ st.Action = "BOOTSTRAP" ∧ st.Severity = "ERR" →
      bootstrapPredicate evt =
        (false, some ("Failing bootstrapping, Tor warning: " ++ mapIndex st.Arguments "WARNING"))) ∧
    (bootstrapPredicate evt = (false, none) ↔
      ¬ (∃ st, evt = .status (some st) ∧ st.Action = "BOOTSTRAP" ∧ st.Severity = "NOTICE" ∧
          mapIndex st.Arguments "PROGRESS" = "100") ∧
      ¬ (∃ st, evt = .status (some st) ∧ st.Action = "BOOTSTRAP" ∧ st.Severity = "ERR")) ∧
    (bootstrapPredicate evt = (true, none) ∨ (∃ e, bootstrapPredicate evt = (false, some e)) ∨
      bootstrapPredicate evt = (false, none)) ∧
    (∀ code, bootstrapPredicate (.other code) = (false, none)) ∧
    bootstrapPredicate (.status none) = (false, none) ∧
    bootstrapPredicate (.status (some ⟨"NOTICE", "BOOTSTRAP", []⟩)) = (false, none) ∧
    bootstrapPredicate (.status (some ⟨"NOTICE", "BOOTSTRAP", [("PROGRESS", "50")]⟩))
      = (false, none) := by
  refine ⟨rfl, ?_, ?_, ?_, ?_, ?_, fun _ => rfl, rfl, by decide, by decide⟩
  all_goals
    rcases evt with (_ | st) | code
    all_goals simp only [bootstrapPredicate]
    all_goals try split_ifs
    all_goals simp_all

/-- C5: when the `GetConf("DisableNetwork")` query succeeds and its result is
empty, or its first entry has another key, or its first entry has a value other
than "1", `EnableNetwork` returns the nil error for either value of `wait`,
leaves the controller in the state the query left it in, and the query is the
only request it sent: no `SetConf` request and no event wait. -/
theorem EnableNetwork_not_needed {σ : Type} (t : Conn σ) (ctx : Option Context) (wait : Bool)
    (s s1 : σ) (vals : List KeyVal)
    (hget : t.GetConf ["DisableNetwork"] s = ((vals, none), s1))
    (hvals : vals = [] ∨ ∃ v rest, vals = v :: rest ∧ (v.Key ≠ "DisableNetwork" ∨ v.Val ≠ "1")) :
    (EnableNetwork t ctx wait s).err = none ∧
    (EnableNetwork t ctx wait s).state = s1 ∧
    (EnableNetwork t ctx wait s).calls = [.getConf ["DisableNetwork"]] ∧
    (∀ entries, Call.setConf entries ∉ (EnableNetwork t ctx wait s).calls) ∧
    (∀ codes, Call.eventWait codes ∉ (EnableNetwork t ctx wait s).calls) := by
  have key : EnableNetwork t ctx wait s = ⟨none, s1, [.getConf ["DisableNetwork"]]⟩ := by
    rcases hvals with rfl | ⟨v, rest, rfl, hv⟩
    · simp only [EnableNetwork, hget]
    · simp only [EnableNetwork, hget]
      rw [if_pos hv]
  rw [key]
  simp

/-- A run of C5 on the counting double: `DisableNetwork` is reported as "0". -/
theorem EnableNetwork_not_needed_witness :
    (EnableNetwork (double [⟨"DisableNetwork", "0"⟩] [] none bootstrapDone)
        none true 0).err = none ∧
    (EnableNetwork (double [⟨"DisableNetwork", "0"⟩] [] none bootstrapDone)
        none true 0).state = 1 ∧
    (EnableNetwork (double [⟨"DisableNetwork", "0"⟩] [] none bootstrapDone)
        none true 0).calls = [.getConf ["DisableNetwork"]] ∧
    (∀ entries, Call.setConf entries ∉
      (EnableNetwork (double [⟨"DisableNetwork", "0"⟩] [] none bootstrapDone) none true 0).calls) ∧
    (∀ codes, Call.eventWait codes ∉
      (EnableNetwork (double [⟨"DisableNetwork", "0"⟩] [] none bootstrapDone) none true 0).calls) :=
  EnableNetwork_not_needed (double [⟨"DisableNetwork", "0"⟩] [] none bootstrapDone) none true 0 1
    [⟨"DisableNetwork", "0"⟩] rfl (Or.inr ⟨⟨"DisableNetwork", "0"⟩, [], rfl, Or.inr (by decide)⟩)

/-- C6: when `DisableNetwork` is reported as "1" and the request
`SetConf(DisableNetwork=0)` succeeds, `EnableNetwork` with `wait = false`
returns the nil error after sending the query and exactly that one `SetConf`
request; `EventWait` is not called, so no notification is consumed and the
controller stays in the state the `SetConf` request left it in. -/
theorem EnableNetwork_no_wait {σ : Type} (t : Conn σ) (ctx : Option Context)
    (s s1 s2 : σ) (v : KeyVal) (rest : List KeyVal)
    (hget : t.GetConf ["DisableNetwork"] s = ((v :: rest, none), s1))
    (hkey : v.Key = "DisableNetwork") (hval : v.Val = "1")
    (hset : t.SetConf [⟨"DisableNetwork", "0"⟩] s1 = (none, s2)) :
    (EnableNetwork t ctx false s).err = none ∧
    (EnableNetwork t ctx false s).state = s2 ∧
    (EnableNetwork t ctx false s).calls
      = [.getConf ["DisableNetwork"], .setConf [⟨"DisableNetwork", "0"⟩]] ∧
    (∀ codes, Call.eventWait codes ∉ (EnableNetwork t ctx false s).calls) := by
  have hv : ¬ (v.Key ≠ "DisableNetwork" ∨ v.Val ≠ "1") := by simp [hkey, hval]
  have key : EnableNetwork t ctx false s
      = ⟨none, s2, [.getConf ["DisableNetwork"], .setConf [⟨"DisableNetwork", "0"⟩]]⟩ := by
    simp only [EnableNetwork, hget]
    rw [if_neg hv]
    simp only [KeyVals, hset]
    rfl
  rw [key]
  simp

/-- A run of C6 on the counting double: two requests were sent, none of them an event wait. -/
theorem EnableNetwork_no_wait_witness :
    (EnableNetwork (double [⟨"DisableNetwork", "1"⟩] [] none bootstrapDone)
        none false 0).err = none ∧
    (EnableNetwork (double [⟨"DisableNetwork", "1"⟩] [] none bootstrapDone)
        none false 0).state = 2 ∧
    (EnableNetwork (double [⟨"DisableNetwork", "1"⟩] [] none bootstrapDone)
        none false 0).calls
      = [.getConf ["DisableNetwork"], .setConf [⟨"DisableNetwork", "0"⟩]] ∧
    (∀ codes, Call.eventWait codes ∉
      (EnableNetwork (double [⟨"DisableNetwork", "1"⟩] [] none bootstrapDone)
        none false 0).calls) :=
  EnableNetwork_no_wait (double [⟨"DisableNetwork", "1"⟩] [] none bootstrapDone) none 0 1 2
    ⟨"DisableNetwork", "1"⟩ [] rfl rfl rfl rfl

/-! ## `Dialer` -/

/-- C7: with an empty `conf.ProxyAddress`, a successful enable step and a
successful `GetInfo("net/listeners/socks")`, `Dialer` calls the SOCKS5
constructor if and only if the result has exactly one entry and that entry has
the key "net/listeners/socks". In that case the constructor is applied in the
state the lookup left and `Dialer` returns what the constructor yields: its
error, and its dialer (wrapped) when that error is nil, and the final state is
the constructor's. On zero entries, on two or more entries, and on a single
entry with another key `Dialer` returns a nil dialer with the error
"Unable to get socks proxy address", the state is the one the lookup left, and
the constructor is never called. -/
theorem Dialer_lookup_requires_single_entry {σ α φ δ : Type} (t : Conn σ)
    (SOCKS5 : String → String → Option α → Option φ → σ → (δ × Option Error) × σ)
    (ctx : Option Context) (conf : Option (DialConf α φ)) (s s1 : σ) (info : List KeyVal)
    (haddr : (confOrDefault conf).ProxyAddress = "")
    (hen : (enableStep t (ctxOrBackground ctx) (confOrDefault conf).SkipEnableNetwork s).err = none)
    (hinfo : t.GetInfo ["net/listeners/socks"]
        (enableStep t (ctxOrBackground ctx) (confOrDefault conf).SkipEnableNetwork s).state
      = ((info, none), s1)) :
    ((∃ n a, Call.socks5 n a ∈ (Dialer t SOCKS5 ctx conf s).calls) ↔
      (info.length = 1 ∧ ∃ kv, info.head? = some kv ∧ kv.Key = "net/listeners/socks")) ∧
    (∀ kv, info = [kv] → kv.Key = "net/listeners/socks" →
      ∃ network address,
        network = (if HasPrefix kv.Val "unix:" then "unix" else "tcp") ∧
        address = (if HasPrefix kv.Val "unix:" then sliceFrom kv.Val 5 else kv.Val) ∧
        (Dialer t SOCKS5 ctx conf s).err =
          (SOCKS5 network address (confOrDefault conf).ProxyAuth
            (confOrDefault conf).Forward s1).1.2 ∧
        (Dialer t SOCKS5 ctx conf s).dialer =
          (if (SOCKS5 network address (confOrDefault conf).ProxyAuth
                (confOrDefault conf).Forward s1).1.2.isSome then none
           else some ⟨(SOCKS5 network address (confOrDefault conf).ProxyAuth
                (confOrDefault conf).Forward s1).1.1⟩) ∧
        (Dialer t SOCKS5 ctx conf s).state =
          (SOCKS5 network address (confOrDefault conf).ProxyAuth
            (confOrDefault conf).Forward s1).2 ∧
        (Dialer t SOCKS5 ctx conf s).calls =
          (enableStep t (ctxOrBackground ctx) (confOrDefault conf).SkipEnableNetwork s).calls ++
            [.getInfo ["net/listeners/socks"], .socks5 network address]) ∧
    ((info.length = 0 ∨ 2 ≤ info.length ∨
        (info.length = 1 ∧ ∃ kv, info.head? = some kv ∧ kv.Key ≠ "net/listeners/socks")) →
      (Dialer t SOCKS5 ctx conf s).dialer.isNone = true ∧
      (Dialer t SOCKS5 ctx conf s).err = some "Unable to get socks proxy address" ∧
      (Dialer t SOCKS5 ctx conf s).state = s1 ∧
      (Dialer t SOCKS5 ctx conf s).calls =
        (enableStep t (ctxOrBackground ctx) (confOrDefault conf).SkipEnableNetwork s).calls ++
          [.getInfo ["net/listeners/socks"]] ∧
      ∀ n a, Call.socks5 n a ∉ (Dialer t SOCKS5 ctx conf s).calls) := by
  have hno := enableStep_calls_cases t (ctxOrBackground ctx) (confOrDefault conf).SkipEnableNetwork s
  have hno1 : ∀ n a, Call.socks5 n a ∉
      (enableStep t (ctxOrBackground ctx) (confOrDefault conf).SkipEnableNetwork s).calls :=
    fun n a h => (hno _ h).1 n a rfl
  have bad : (¬ (info.length = 1 ∧ ∃ kv, info.head? = some kv ∧ kv.Key = "net/listeners/socks")) →
      (Dialer t SOCKS5 ctx conf s).dialer.isNone = true ∧
      (Dialer t SOCKS5 ctx conf s).err = some "Unable to get socks proxy address" ∧
      (Dialer t SOCKS5 ctx conf s).state = s1 ∧
      (Dialer t SOCKS5 ctx conf s).calls =
        (enableStep t (ctxOrBackground ctx) (confOrDefault conf).SkipEnableNetwork s).calls ++
          [.getInfo ["net/listeners/socks"]] ∧
      ∀ n a, Call.socks5 n a ∉ (Dialer t SOCKS5 ctx conf s).calls := by
    intro hbad
    simp only [Dialer, hen, haddr, hinfo, if_true]
    split
    · rename_i kv
      have hk : kv.Key ≠ "net/listeners/socks" := fun h => hbad ⟨rfl, kv, rfl, h⟩
      rw [if_pos hk]
      simpa using hno1
    · simpa using hno1
  refine ⟨⟨?_, ?_⟩, ?_, ?_⟩
  · rintro ⟨n, a, hmem⟩
    by_contra hbad
    exact (bad hbad).2.2.2.2 n a hmem
  · rintro ⟨hlen, kv, hhead, hk⟩
    obtain ⟨x, rfl⟩ := List.length_eq_one.mp hlen
    obtain rfl : x = kv := by simpa using hhead
    rw [(Dialer_lookup_result t SOCKS5 ctx conf s s1 x haddr hen hinfo hk _ _ rfl rfl).2.2.2]
    exact ⟨_, _, List.mem_append_right _ (List.mem_cons_of_mem _ (List.mem_singleton.mpr rfl))⟩
  · rintro kv rfl hk
    exact ⟨_, _, rfl, rfl, Dialer_lookup_result t SOCKS5 ctx conf s s1 kv haddr hen hinfo hk _ _ rfl rfl⟩
  · intro h
    apply bad
    rintro ⟨hlen, kv, hhead, hk⟩
    rcases h with h | h | ⟨_, kv2, hhead2, hk2⟩
    · omega
    · omega
    · rw [hhead] at hhead2
      obtain rfl : kv = kv2 := by simpa using hhead2
      exact hk2 hk

/-- Two runs of C7 on the recording doubles. When the lookup yields zero
entries, `Dialer` returns a nil dialer and the resolution error, and the record
holds no constructor call. When it yields the single entry
`net/listeners/socks = 127.0.0.1:9050`, the constructor double records the
call and its dialer is returned. -/
theorem Dialer_lookup_requires_single_entry_witness :
    ((Dialer (recorder [] [] none bootstrapDone) socksRecorder none none []).dialer = none ∧
      (Dialer (recorder [] [] none bootstrapDone) socksRecorder none none []).err
        = some "Unable to get socks proxy address" ∧
      (Dialer (recorder [] [] none bootstrapDone) socksRecorder none none []).state
        = [.getConf ["DisableNetwork"], .getInfo ["net/listeners/socks"]]) ∧
    ((Dialer (recorder [] [⟨"net/listeners/socks", "127.0.0.1:9050"⟩] none bootstrapDone)
        socksRecorder none none []).dialer = some ⟨("tcp", "127.0.0.1:9050")⟩ ∧
      (Dialer (recorder [] [⟨"net/listeners/socks", "127.0.0.1:9050"⟩] none bootstrapDone)
        socksRecorder none none []).err = none ∧
      (Dialer (recorder [] [⟨"net/listeners/socks", "127.0.0.1:9050"⟩] none bootstrapDone)
        socksRecorder none none []).state
        = [.getConf ["DisableNetwork"], .getInfo ["net/listeners/socks"],
            .socks5 "tcp" "127.0.0.1:9050"]) := by
  have hbad := (Dialer_lookup_requires_single_entry (recorder [] [] none bootstrapDone)
    socksRecorder none none [] [.getConf ["DisableNetwork"], .getInfo ["net/listeners/socks"]]
    [] rfl rfl rfl).2.2 (Or.inl rfl)
  obtain ⟨network, address, hn, ha, h1, h2, h3, _⟩ :=
    (Dialer_lookup_requires_single_entry
      (recorder [] [⟨"net/listeners/socks", "127.0.0.1:9050"⟩] none bootstrapDone)
      socksRecorder none none [] [.getConf ["DisableNetwork"], .getInfo ["net/listeners/socks"]]
      [⟨"net/listeners/socks", "127.0.0.1:9050"⟩] rfl rfl rfl).2.1
      ⟨"net/listeners/socks", "127.0.0.1:9050"⟩ rfl rfl
  have hn1 : network = "tcp" := by rw [hn]; decide
  have ha1 : address = "127.0.0.1:9050" := by rw [ha]; decide
  subst hn1 ha1
  exact ⟨⟨by simpa using hbad.1, hbad.2.1, hbad.2.2.1⟩, h2, h1, h3⟩

/-- C8: with an empty `conf.ProxyAddress`, a successful enable step and a
lookup that yields the single value `v`, the endpoint `Dialer` passes to the
SOCKS5 constructor is `("unix", rest)` when `v` is "unix:" followed by `rest`,
and `("tcp", v)` when `v` does not start with "unix:": `Dialer` returns the
error and the dialer the constructor yields on that endpoint (with the
configured auth and forward dialer, in the state the lookup left) and ends in
the constructor's state. `conf.ProxyNetwork` has no part in it. -/
theorem Dialer_lookup_endpoint {σ α φ δ : Type} (t : Conn σ)
    (SOCKS5 : String → String → Option α → Option φ → σ → (δ × Option Error) × σ)
    (ctx : Option Context) (conf : Option (DialConf α φ)) (s s1 : σ) (v : String)
    (haddr : (confOrDefault conf).ProxyAddress = "")
    (hen : (enableStep t (ctxOrBackground ctx) (confOrDefault conf).SkipEnableNetwork s).err = none)
    (hinfo : t.GetInfo ["net/listeners/socks"]
        (enableStep t (ctxOrBackground ctx) (confOrDefault conf).SkipEnableNetwork s).state
      = (([⟨"net/listeners/socks", v⟩], none), s1)) :
    (∀ rest, v = "unix:" ++ rest →
      (Dialer t SOCKS5 ctx conf s).err =
        (SOCKS5 "unix" rest (confOrDefault conf).ProxyAuth (confOrDefault conf).Forward s1).1.2 ∧
      (Dialer t SOCKS5 ctx conf s).dialer =
        (if (SOCKS5 "unix" rest (confOrDefault conf).ProxyAuth
              (confOrDefault conf).Forward s1).1.2.isSome then none
         else some ⟨(SOCKS5 "unix" rest (confOrDefault conf).ProxyAuth
              (confOrDefault conf).Forward s1).1.1⟩) ∧
      (Dialer t SOCKS5 ctx conf s).state =
        (SOCKS5 "unix" rest (confOrDefault conf).ProxyAuth (confOrDefault conf).Forward s1).2 ∧
      (Dialer t SOCKS5 ctx conf s).calls =
        (enableStep t (ctxOrBackground ctx) (confOrDefault conf).SkipEnableNetwork s).calls ++
          [.getInfo ["net/listeners/socks"], .socks5 "unix" rest]) ∧
    ((¬ ∃ rest, v = "unix:" ++ rest) →
      (Dialer t SOCKS5 ctx conf s).err =
        (SOCKS5 "tcp" v (confOrDefault conf).ProxyAuth (confOrDefault conf).Forward s1).1.2 ∧
      (Dialer t SOCKS5 ctx conf s).dialer =
        (if (SOCKS5 "tcp" v (confOrDefault conf).ProxyAuth
              (confOrDefault conf).Forward s1).1.2.isSome then none
         else some ⟨(SOCKS5 "tcp" v (confOrDefault conf).ProxyAuth
              (confOrDefault conf).Forward s1).1.1⟩) ∧
      (Dialer t SOCKS5 ctx conf s).state =
        (SOCKS5 "tcp" v (confOrDefault conf).ProxyAuth (confOrDefault conf).Forward s1).2 ∧
      (Dialer t SOCKS5 ctx conf s).calls =
        (enableStep t (ctxOrBackground ctx) (confOrDefault conf).SkipEnableNetwork s).calls ++
          [.getInfo ["net/listeners/socks"], .socks5 "tcp" v]) := by
  constructor
  · rintro rest rfl
    have hp : HasPrefix ("unix:" ++ rest) "unix:" = true := (HasPrefix_iff _ _).mpr ⟨rest, rfl⟩
    have hs : sliceFrom ("unix:" ++ rest) 5 = rest := sliceFrom_append "unix:" rest
    exact Dialer_lookup_result t SOCKS5 ctx conf s s1 ⟨"net/listeners/socks", "unix:" ++ rest⟩
      haddr hen hinfo rfl "unix" rest (by simp [hp]) (by simp [hp, hs])
  · intro hnot
    have hp : ¬ HasPrefix v "unix:" = true := fun h => hnot ((HasPrefix_iff _ _).mp h)
    exact Dialer_lookup_result t SOCKS5 ctx conf s s1 ⟨"net/listeners/socks", v⟩
      haddr hen hinfo rfl "tcp" v (by simp [hp]) (by simp [hp])

/-- Two runs of C8 on the recording doubles, both with the configured network
"udp". The lookup value "unix:/var/run/tor/socks" makes the constructor double
receive `("unix", "/var/run/tor/socks")`; the lookup value "127.0.0.1:9050"
makes it receive `("tcp", "127.0.0.1:9050")`. The dialer returned is the one
the double built from what it received. -/
theorem Dialer_lookup_endpoint_witness :
    ((Dialer (recorder [] [⟨"net/listeners/socks", "unix:/var/run/tor/socks"⟩] none bootstrapDone)
        socksRecorder none (some { ProxyNetwork := "udp" }) []).dialer
        = some ⟨("unix", "/var/run/tor/socks")⟩ ∧
      (Dialer (recorder [] [⟨"net/listeners/socks", "unix:/var/run/tor/socks"⟩] none bootstrapDone)
        socksRecorder none (some { ProxyNetwork := "udp" }) []).state
        = [.getConf ["DisableNetwork"], .getInfo ["net/listeners/socks"],
            .socks5 "unix" "/var/run/tor/socks"]) ∧
    ((Dialer (recorder [] [⟨"net/listeners/socks", "127.0.0.1:9050"⟩] none bootstrapDone)
        socksRecorder none (some { ProxyNetwork := "udp" }) []).dialer
        = some ⟨("tcp", "127.0.0.1:9050")⟩ ∧
      (Dialer (recorder [] [⟨"net/listeners/socks", "127.0.0.1:9050"⟩] none bootstrapDone)
        socksRecorder none (some { ProxyNetwork := "udp" }) []).state
        = [.getConf ["DisableNetwork"], .getInfo ["net/listeners/socks"],
            .socks5 "tcp" "127.0.0.1:9050"]) := by
  have hunix := (Dialer_lookup_endpoint
    (recorder [] [⟨"net/listeners/socks", "unix:/var/run/tor/socks"⟩] none bootstrapDone)
    socksRecorder none (some { ProxyNetwork := "udp" }) []
    [.getConf ["DisableNetwork"], .getInfo ["net/listeners/socks"]] "unix:/var/run/tor/socks"
    rfl rfl rfl).1 "/var/run/tor/socks" (by decide)
  have htcp := (Dialer_lookup_endpoint
    (recorder [] [⟨"net/listeners/socks", "127.0.0.1:9050"⟩] none bootstrapDone)
    socksRecorder none (some { ProxyNetwork := "udp" }) []
    [.getConf ["DisableNetwork"], .getInfo ["net/listeners/socks"]] "127.0.0.1:9050"
    rfl rfl rfl).2 (by
      rintro ⟨rest, h⟩
      have h2 := (HasPrefix_iff "127.0.0.1:9050" "unix:").mpr ⟨rest, h⟩
      revert h2
      decide)
  exact ⟨⟨hunix.2.1, hunix.2.2.1⟩, htcp.2.1, htcp.2.2.1⟩

/-- C9 fails as stated: with the address "127.0.0.1:9150" configured,
`DisableNetwork` reported as "1" and the bootstrap ending in an "ERR" status,
the enable step of `Dialer` fails; `Dialer` returns a nil dialer with that
error, and the record of the doubles holds the three controller requests and
no constructor call. So it is not true that for every non-empty address the
address is passed to the SOCKS5 constructor. -/
theorem Dialer_explicit_address_enable_failure :
    (Dialer (recorder [⟨"DisableNetwork", "1"⟩] [] none bootstrapFailed) socksRecorder none
        (some { ProxyAddress := "127.0.0.1:9150" }) []).dialer = none ∧
    (Dialer (recorder [⟨"DisableNetwork", "1"⟩] [] none bootstrapFailed) socksRecorder none
        (some { ProxyAddress := "127.0.0.1:9150" }) []).err
      = some "Failing bootstrapping, Tor warning: no route" ∧
    (Dialer (recorder [⟨"DisableNetwork", "1"⟩] [] none bootstrapFailed) socksRecorder none
        (some { ProxyAddress := "127.0.0.1:9150" }) []).state
      = [.getConf ["DisableNetwork"], .setConf [⟨"DisableNetwork", "0"⟩],
          .eventWait [EventCodeStatusClient]] ∧
    ¬ (∀ (t : Conn (List Call)) (conf : DialConf Unit Unit), conf.ProxyAddress ≠ "" →
        Call.socks5 (if conf.ProxyNetwork = "" then "tcp" else conf.ProxyNetwork)
            conf.ProxyAddress
          ∈ (Dialer t socksRecorder none (some conf) []).state) := by
  refine ⟨by decide, by decide, by decide, fun h => ?_⟩
  have := h (recorder [⟨"DisableNetwork", "1"⟩] [] none bootstrapFailed)
    { ProxyAddress := "127.0.0.1:9150" } (by decide)
  revert this
  decide

/-- C9 as amended: with a non-empty `conf.ProxyAddress`, `Dialer` sends no
`GetInfo` lookup. When the enable step is skipped or succeeds, `Dialer` applies
the SOCKS5 constructor, in the state the enable step left, to that address
unchanged, with network "tcp" when `conf.ProxyNetwork` is empty and with
`conf.ProxyNetwork` unchanged otherwise, and returns what the constructor
yields. When the enable step fails, `Dialer` returns a nil dialer with that
error, in the state the enable step left, and the constructor is not called. -/
theorem Dialer_explicit_address {σ α φ δ : Type} (t : Conn σ)
    (SOCKS5 : String → String → Option α → Option φ → σ → (δ × Option Error) × σ)
    (ctx : Option Context) (conf : Option (DialConf α φ)) (s : σ)
    (haddr : (confOrDefault conf).ProxyAddress ≠ "") :
    (∀ keys, Call.getInfo keys ∉ (Dialer t SOCKS5 ctx conf s).calls) ∧
    (∀ n a, Call.socks5 n a ∈ (Dialer t SOCKS5 ctx conf s).calls →
      a = (confOrDefault conf).ProxyAddress ∧
      n = if (confOrDefault conf).ProxyNetwork = "" then "tcp"
          else (confOrDefault conf).ProxyNetwork) ∧
    ((enableStep t (ctxOrBackground ctx) (confOrDefault conf).SkipEnableNetwork s).err = none →
      ∃ network,
        network = (if (confOrDefault conf).ProxyNetwork = "" then "tcp"
          else (confOrDefault conf).ProxyNetwork) ∧
        (Dialer t SOCKS5 ctx conf s).err =
          (SOCKS5 network (confOrDefault conf).ProxyAddress (confOrDefault conf).ProxyAuth
            (confOrDefault conf).Forward
            (enableStep t (ctxOrBackground ctx)
              (confOrDefault conf).SkipEnableNetwork s).state).1.2 ∧
        (Dialer t SOCKS5 ctx conf s).dialer =
          (if (SOCKS5 network (confOrDefault conf).ProxyAddress (confOrDefault conf).ProxyAuth
                (confOrDefault conf).Forward
                (enableStep t (ctxOrBackground ctx)
                  (confOrDefault conf).SkipEnableNetwork s).state).1.2.isSome then none
           else some ⟨(SOCKS5 network (confOrDefault conf).ProxyAddress
                (confOrDefault conf).ProxyAuth (confOrDefault conf).Forward
                (enableStep t (ctxOrBackground ctx)
                  (confOrDefault conf).SkipEnableNetwork s).state).1.1⟩) ∧
        (Dialer t SOCKS5 ctx conf s).state =
          (SOCKS5 network (confOrDefault conf).ProxyAddress (confOrDefault conf).ProxyAuth
            (confOrDefault conf).Forward
            (enableStep t (ctxOrBackground ctx)
              (confOrDefault conf).SkipEnableNetwork s).state).2 ∧
        (Dialer t SOCKS5 ctx conf s).calls =
          (enableStep t (ctxOrBackground ctx) (confOrDefault conf).SkipEnableNetwork s).calls ++
            [.socks5 network (confOrDefault conf).ProxyAddress]) ∧
    (∀ e, (enableStep t (ctxOrBackground ctx) (confOrDefault conf).SkipEnableNetwork s).err
        = some e →
      (Dialer t SOCKS5 ctx conf s).dialer.isNone = true ∧
      (Dialer t SOCKS5 ctx conf s).err = some e ∧
      (Dialer t SOCKS5 ctx conf s).state =
        (enableStep t (ctxOrBackground ctx) (confOrDefault conf).SkipEnableNetwork s).state ∧
      (Dialer t SOCKS5 ctx conf s).calls =
        (enableStep t (ctxOrBackground ctx) (confOrDefault conf).SkipEnableNetwork s).calls) := by
  have hno := enableStep_calls_cases t (ctxOrBackground ctx) (confOrDefault conf).SkipEnableNetwork s
  have hno1 : ∀ n a, Call.socks5 n a ∉
      (enableStep t (ctxOrBackground ctx) (confOrDefault conf).SkipEnableNetwork s).calls :=
    fun n a h => (hno _ h).1 n a rfl
  have hno2 : ∀ k, Call.getInfo k ∉
      (enableStep t (ctxOrBackground ctx) (confOrDefault conf).SkipEnableNetwork s).calls :=
    fun k h => (hno _ h).2 k rfl
  cases hen : (enableStep t (ctxOrBackground ctx) (confOrDefault conf).SkipEnableNetwork s).err with
  | some e =>
    have key : (Dialer t SOCKS5 ctx conf s).dialer.isNone = true ∧
        (Dialer t SOCKS5 ctx conf s).err = some e ∧
        (Dialer t SOCKS5 ctx conf s).state =
          (enableStep t (ctxOrBackground ctx) (confOrDefault conf).SkipEnableNetwork s).state ∧
        (Dialer t SOCKS5 ctx conf s).calls =
          (enableStep t (ctxOrBackground ctx) (confOrDefault conf).SkipEnableNetwork s).calls := by
      simp only [Dialer, hen, Option.isNone_none, and_self]
    refine ⟨?_, ?_, fun h => by simp at h, ?_⟩
    · rw [key.2.2.2]; exact hno2
    · rw [key.2.2.2]; exact fun n a h => absurd h (hno1 n a)
    · intro e2 he2
      obtain rfl : e = e2 := by simpa using he2
      exact key
  | none =>
    have key := Dialer_explicit_result t SOCKS5 ctx conf s haddr hen _ rfl
    refine ⟨?_, ?_, fun _ => ⟨_, rfl, key⟩, fun e h => by simp at h⟩
    · intro k hk
      rw [key.2.2.2] at hk
      rcases List.mem_append.mp hk with h | h
      · exact hno2 k h
      · simp at h
    · intro n a hk
      rw [key.2.2.2] at hk
      rcases List.mem_append.mp hk with h | h
      · exact absurd h (hno1 n a)
      · simp only [List.mem_singleton, Call.socks5.injEq] at h
        exact ⟨h.2, h.1⟩

/-- A run of C9 as amended on the recording doubles: address "127.0.0.1:9150",
no network, `DisableNetwork` not set. The constructor double receives
`("tcp", "127.0.0.1:9150")`, its dialer is returned, and the record holds no
lookup. -/
theorem Dialer_explicit_address_witness :
    (Dialer (recorder [] [] none bootstrapDone) socksRecorder none
        (some { ProxyAddress := "127.0.0.1:9150" }) []).dialer
      = some ⟨("tcp", "127.0.0.1:9150")⟩ ∧
    (Dialer (recorder [] [] none bootstrapDone) socksRecorder none
        (some { ProxyAddress := "127.0.0.1:9150" }) []).err = none ∧
    (Dialer (recorder [] [] none bootstrapDone) socksRecorder none
        (some { ProxyAddress := "127.0.0.1:9150" }) []).state
      = [.getConf ["DisableNetwork"], .socks5 "tcp" "127.0.0.1:9150"] := by
  obtain ⟨network, hn, h1, h2, h3, _⟩ :=
    (Dialer_explicit_address (recorder [] [] none bootstrapDone) socksRecorder none
      (some { ProxyAddress := "127.0.0.1:9150" }) [] (by decide)).2.2.1 rfl
  have hn1 : network = "tcp" := by rw [hn]; decide
  subst hn1
  exact ⟨h2, h1, h3⟩

/-! ## `dialWithCtx` -/

/-- C2 fails as stated: `f` returns the connection 7 together with the error
"connection refused" while the context is live; the function produced by
`dialWithCtx` returns `(0, "connection refused")`, the zero value in place of 7.
So it is not true that every result of an `f` that completes while the context
is live is returned unaltered. -/
theorem dialWithCtx_error_drops_conn :
    dialRun dialBoth "tcp" "example.com:80" [.fReturns, .recvErr] (dialInit Background)
      = some ⟨Background, .finished, .returned 0 (some "connection refused")⟩ ∧
    dialBoth "tcp" "example.com:80" = (7, some "connection refused") ∧
    ¬ (∀ (f : String → String → Nat × Option Error) (network address : String)
        (ms : List Move) (st : DialState Nat) (conn : Nat) (err : Option Error),
        dialRun f network address ms (dialInit Background) = some st →
        st.ctx.Err = none → st.caller = .returned conn err →
        (conn, err) = f network address) := by
  refine ⟨by decide, rfl, fun h => ?_⟩
  have := h dialBoth "tcp" "example.com:80" [.fReturns, .recvErr]
    ⟨Background, .finished, .returned 0 (some "connection refused")⟩ 0
    (some "connection refused") (by decide) rfl rfl
  simp [dialBoth] at this

/-- C2 as amended: in every run of the function produced by `dialWithCtx(f)`,
when the function has returned while the context is still live, or has
returned by receiving what the goroutine sent, it returned the error `e` of
`f` unaltered, with the connection of `f` when `e` is nil and with the zero
value when `e` is non-nil. And when the caller is at its `select`, the context
is live and `f` has completed, the `select` does return that result, and it
can return nothing else. -/
theorem dialWithCtx_completion_first {C : Type} [Inhabited C]
    (f : String → String → C × Option Error) (network address : String) (ctx : Context)
    (ms : List Move) (st : DialState C)
    (hrun : dialRun f network address ms (dialInit ctx) = some st) :
    (∀ conn err, st.caller = .returned conn err → (st.ctx.Err = none ∨ st.gor = .finished) →
      err = (f network address).2 ∧
      conn = if (f network address).2 = none then (f network address).1 else default) ∧
    (st.caller = .selecting → st.ctx.Err = none → st.gor ≠ .running →
      ∃ m st1, dialWithCtx f network address m st = some st1 ∧
        st1.caller = .returned
          (if (f network address).2 = none then (f network address).1 else default)
          (f network address).2 ∧
        ∀ m2 st2, dialWithCtx f network address m2 st = some st2 → st2.caller ≠ .selecting →
          st2 = st1) := by
  have hinv := DialInv_run f network address ms _ _ (DialInv_init f network address ctx) hrun
  obtain ⟨⟨cerr⟩, gor, caller⟩ := st
  constructor
  · intro conn err hret hwin
    simp only at hret hwin
    subst hret
    cases gor <;> cases cerr <;> simp_all [DialInv]
  · intro hsel hlive hgor
    simp only at hsel hlive hgor
    subst hsel hlive
    cases gor with
    | running => exact absurd rfl hgor
    | finished => simp [DialInv] at hinv
    | sendErr e =>
      simp only [DialInv] at hinv
      refine ⟨.recvErr, _, rfl, ?_, ?_⟩
      · simp [hinv]
      · intro m2 st2 h2 hne
        cases m2 <;> simp [dialWithCtx] at h2 <;> subst h2 <;> simp at hne ⊢
    | sendConn c =>
      simp only [DialInv] at hinv
      refine ⟨.recvConn, _, rfl, ?_, ?_⟩
      · simp [hinv]
      · intro m2 st2 h2 hne
        cases m2 <;> simp [dialWithCtx] at h2 <;> subst h2 <;> simp at hne ⊢

/-- A run of C2 as amended: `f` succeeds with connection 7 under a live
context and the function returns `(7, nil)`. -/
theorem dialWithCtx_completion_first_witness :
    (none : Option Error) = (dialOk "tcp" "example.com:80").2 ∧
    (7 : Nat) = if (dialOk "tcp" "example.com:80").2 = none
      then (dialOk "tcp" "example.com:80").1 else default :=
  (dialWithCtx_completion_first dialOk "tcp" "example.com:80" Background [.fReturns, .recvConn]
    ⟨Background, .finished, .returned 7 none⟩ (by decide)).1 7 none rfl (Or.inl rfl)

/-- C3 fails as stated: the context is cancelled before `f` completes, `f`
then returns `(7, nil)` before the `select` is resolved, both `ctx.Done()` and
`chConn` are ready, and the `select` takes `chConn`: the function returns
`(7, nil)`, a nil error. So it is not true that every run in which the
cancellation fires first returns the zero value and `ctx.Err()`. -/
theorem dialWithCtx_cancelled_may_return_result :
    dialRun dialOk "tcp" "example.com:80" [.cancel "context canceled", .fReturns, .recvConn]
        (dialInit Background)
      = some ⟨⟨some "context canceled"⟩, .finished, .returned 7 none⟩ ∧
    ¬ (∀ (f : String → String → Nat × Option Error) (network address : String)
        (reason : Error) (ms : List Move) (st : DialState Nat) (conn : Nat) (err : Option Error),
        dialRun f network address (.cancel reason :: ms) (dialInit Background) = some st →
        st.caller = .returned conn err → conn = default ∧ err = some reason) := by
  refine ⟨by decide, fun h => ?_⟩
  have := h dialOk "tcp" "example.com:80" "context canceled" [.fReturns, .recvConn]
    ⟨⟨some "context canceled"⟩, .finished, .returned 7 none⟩ 7 none (by decide) rfl
  simp at this

/-- C3 as amended: in every run of the function produced by `dialWithCtx(f)`,
when the `select` is resolved while the context is cancelled and `f` has not
completed, it takes `case <-ctx.Done()` and returns the zero value together
with `ctx.Err()`, and it can return nothing else; whenever the function has
returned without receiving from the goroutine, it returned the zero value and
the non-nil `ctx.Err()`; and once it has returned, nothing that happens later,
whatever `f` returns, changes what it returned. -/
theorem dialWithCtx_cancellation_first {C : Type} [Inhabited C]
    (f : String → String → C × Option Error) (network address : String) (ctx : Context)
    (ms : List Move) (st : DialState C)
    (hrun : dialRun f network address ms (dialInit ctx) = some st) :
    (∀ reason, st.caller = .selecting → st.ctx.Err = some reason → st.gor = .running →
      dialWithCtx f network address .recvDone st
        = some { st with caller := .returned default (some reason) } ∧
      ∀ m st1, dialWithCtx f network address m st = some st1 → st1.caller ≠ .selecting →
        st1.caller = .returned default (some reason)) ∧
    (∀ conn err, st.caller = .returned conn err → st.gor ≠ .finished →
      conn = default ∧ err = st.ctx.Err ∧ err ≠ none) ∧
    (∀ conn err ms1 st1, st.caller = .returned conn err →
      dialRun f network address ms1 st = some st1 → st1.caller = .returned conn err) := by
  have hinv := DialInv_run f network address ms _ _ (DialInv_init f network address ctx) hrun
  refine ⟨?_, ?_, ?_⟩
  · obtain ⟨⟨cerr⟩, gor, caller⟩ := st
    intro reason hsel hctx hgor
    simp only at hsel hctx hgor
    subst hsel hctx hgor
    refine ⟨rfl, ?_⟩
    intro m st1 h1 hne
    cases hf : f network address with
    | mk fc fe =>
    cases m <;> cases fe <;> simp [dialWithCtx, hf] at h1 <;> subst h1 <;> simp at hne ⊢
  · obtain ⟨⟨cerr⟩, gor, caller⟩ := st
    intro conn err hret hgor
    simp only at hret hgor
    subst hret
    cases gor with
    | finished => exact absurd rfl hgor
    | running => exact hinv
    | sendErr e => exact hinv.2
    | sendConn c => exact hinv.2
  · intro conn err ms1 st1 hret hrun1
    exact (dialRun_after_return f network address ms1 st st1 conn err hret hrun1).1

/-- A run of C3 as amended: the context is cancelled with "context canceled"
while `f` is still running; the `select` returns `(0, "context canceled")`. -/
theorem dialWithCtx_cancellation_first_witness :
    dialWithCtx dialOk "tcp" "example.com:80" .recvDone
        ⟨⟨some "context canceled"⟩, .running, .selecting⟩
      = some ⟨⟨some "context canceled"⟩, .running, .returned 0 (some "context canceled")⟩ ∧
    ∀ m st1, dialWithCtx dialOk "tcp" "example.com:80" m
        ⟨⟨some "context canceled"⟩, .running, .selecting⟩ = some st1 →
      st1.caller ≠ .selecting → st1.caller = .returned 0 (some "context canceled") :=
  (dialWithCtx_cancellation_first dialOk "tcp" "example.com:80" Background
    [.cancel "context canceled"] ⟨⟨some "context canceled"⟩, .running, .selecting⟩
    (by decide)).1 "context canceled" rfl rfl rfl

/-- C10: the context is cancelled, the `select` takes `case <-ctx.Done()`,
and then `f` returns `(7, nil)`. The goroutine stands at `chConn <- conn`; in
that state no move is possible, so in every continuation the goroutine is
still at its send and never finishes. The result 7 reaches no caller. -/
theorem dialWithCtx_cancelled_goroutine_blocks :
    dialRun dialOk "tcp" "example.com:80" [.cancel "context canceled", .recvDone, .fReturns]
        (dialInit Background)
      = some ⟨⟨some "context canceled"⟩, .sendConn 7, .returned 0 (some "context canceled")⟩ ∧
    (∀ m, dialWithCtx dialOk "tcp" "example.com:80" m
        ⟨⟨some "context canceled"⟩, .sendConn 7, .returned 0 (some "context canceled")⟩ = none) ∧
    (∀ ms st, dialRun dialOk "tcp" "example.com:80" ms
        ⟨⟨some "context canceled"⟩, .sendConn 7, .returned 0 (some "context canceled")⟩ = some st →
      st.gor = .sendConn 7) := by
  have hstuck : ∀ m, dialWithCtx dialOk "tcp" "example.com:80" m
      ⟨⟨some "context canceled"⟩, .sendConn 7, .returned 0 (some "context canceled")⟩ = none := by
    intro m
    cases m <;> rfl
  refine ⟨by decide, hstuck, ?_⟩
  intro ms st hrun
  cases ms with
  | nil =>
    simp only [dialRun, Option.some.injEq] at hrun
    subst hrun
    rfl
  | cons m ms =>
    simp [dialRun, hstuck m] at hrun

end tor
